import Mathlib

/-!
 # Verification of the analytics-docs CSV extraction pipeline

A shallow embedding of `src/get_analytics_csv.py`: the detector-record
extraction (`parse_topics`, `variations`), the table-cell lookup, the
mashed-together ATT&CK tactic/technique splitting, and the required-data
taxonomy classifier, together with theorems settling the frozen claims.

Python strings are modelled as `List Char` (`Str`); Python's substring
operator `in` is `strIn`; `str.strip()` is `trim`; `str.split(sep)` for a
one-character separator is `splitOnChar`.  A Python computation that can
raise an uncaught exception is modelled in `Option`, with `none` standing
for the raised error; the bare `except:` around the optional-label lookups
is `Option.getD`.
-/

/-- Python strings, modelled as lists of characters. -/
abbrev Str := List Char

/-- Python's substring test `needle in hay` (case-sensitive). -/
def strIn (needle hay : Str) : Bool :=
  hay.tails.any (fun s => needle.isPrefixOf s)

/-- Python's `str.strip()`: drop leading and trailing whitespace. -/
def trim (s : Str) : Str :=
  ((s.dropWhile Char.isWhitespace).reverse.dropWhile Char.isWhitespace).reverse

/-- Python's `str.split(c)` for a single-character separator: split at every
occurrence of `c`, keeping empty fragments (so the result always has one more
fragment than there are separators). -/
def splitOnChar (c : Char) : Str → List Str
  | [] => [[]]
  | x :: xs =>
    if x = c then [] :: splitOnChar c xs
    else
      match splitOnChar c xs with
      | [] => [[x]]
      | y :: ys => (x :: y) :: ys

/-- Lines 195-198 / 322-325 of `get_analytics_csv.py`:
`cell.split(')')`, keep the truthy (non-empty) fragments, and re-append `)`
to each stripped fragment. -/
def splitEntries (cell : Str) : List Str :=
  ((splitOnChar ')' cell).filter (fun t => !t.isEmpty)).map (fun t => trim t ++ [')'])

/-!
 ## Table-cell lookup

One parsed table is a `List (List Str)`: each row is the list of its
non-empty stripped cell texts.  The lookup
`[x for x in table if x[0] == label][0][1]` raises `IndexError` when any row
is empty (the comprehension evaluates `x[0]` for every row), when no row
carries the label, or when the first matching row has no second cell; all
three failure modes are `none`.
-/

/-- The lookup `[x for x in table if x[0] == label][0][1]`; `none` models an
uncaught `IndexError`. -/
def getRequired (table : List (List Str)) (label : Str) : Option Str :=
  if table.any (fun r => r.isEmpty) then none
  else
    match table.filter (fun r => decide (r.head? = some label)) with
    | [] => none
    | r :: _ => r[1]?

/-- The same lookup wrapped in the source's bare `try/except`, which turns
any failure into the empty string. -/
def getOptional (table : List (List Str)) (label : Str) : Str :=
  (getRequired table label).getD []

/-- Lines 170-174 / 312-316: build a table from the raw `td` cell texts of
each `tr` row — strip every cell, keep only the truthy (non-empty) ones. -/
def buildTable (raws : List (List Str)) : List (List Str) :=
  raws.map (fun cols => (cols.map trim).filter (fun c => !c.isEmpty))

/-!
 ## Taxonomy classifier

The `sources` dict of lines 216-246 has a fixed, closed key set, so it is
embedded as a structure with one `Bool` field per key (`true` models the
cell mark `'X'`, `false` the empty cell).
-/

/-- The fixed capability-flag taxonomy: one field per key of the `sources`
dict (lines 216-246), in source order. -/
structure Sources where
  aws_audit_log : Bool
  aws_flow_log : Bool
  aws_ocsf_flow_logs : Bool
  azure_audit_log : Bool
  azure_flow_log : Bool
  azure_signin_log : Bool
  azuread : Bool
  azuread_audit_log : Bool
  box_audit_log : Bool
  dropbox : Bool
  duo : Bool
  gcp_audit_log : Bool
  gcp_flow_log : Bool
  google_workspace_audit_logs : Bool
  google_workspace_authentication : Bool
  health_monitoring_data : Bool
  office_365_audit : Bool
  okta : Bool
  okta_audit_log : Bool
  onelogin : Bool
  palo_alto_networks_global_protect : Bool
  palo_alto_networks_platform_logs : Bool
  palo_alto_networks_url_logs : Bool
  pingone : Bool
  third_party_firewalls : Bool
  third_party_vpns : Bool
  windows_event_collector : Bool
  xdr_agent : Bool
  xdr_agent_xth : Bool
  deriving DecidableEq, Repr, Inhabited

/-- Lines 248-250: the generic pass `if k in required_data: sources[k] = ['X']`
over the initially-empty dict — each flag is set iff its key occurs as a
substring of the raw required-data text. -/
def initSources (rd : Str) : Sources where
  aws_audit_log := strIn "AWS Audit Log".toList rd
  aws_flow_log := strIn "AWS Flow Log".toList rd
  aws_ocsf_flow_logs := strIn "AWS OCSF Flow Logs".toList rd
  azure_audit_log := strIn "Azure Audit Log".toList rd
  azure_flow_log := strIn "Azure Flow Log".toList rd
  azure_signin_log := strIn "Azure SignIn Log".toList rd
  azuread := strIn "AzureAD".toList rd
  azuread_audit_log := strIn "AzureAD Audit Log".toList rd
  box_audit_log := strIn "Box Audit Log".toList rd
  dropbox := strIn "DropBox".toList rd
  duo := strIn "Duo".toList rd
  gcp_audit_log := strIn "Gcp Audit Log".toList rd
  gcp_flow_log := strIn "Gcp Flow Log".toList rd
  google_workspace_audit_logs := strIn "Google Workspace Audit Logs".toList rd
  google_workspace_authentication := strIn "Google Workspace Authentication".toList rd
  health_monitoring_data := strIn "Health Monitoring Data".toList rd
  office_365_audit := strIn "Office 365 Audit".toList rd
  okta := strIn "Okta".toList rd
  okta_audit_log := strIn "Okta Audit Log".toList rd
  onelogin := strIn "OneLogin".toList rd
  palo_alto_networks_global_protect := strIn "Palo Alto Networks Global Protect".toList rd
  palo_alto_networks_platform_logs := strIn "Palo Alto Networks Platform Logs".toList rd
  palo_alto_networks_url_logs := strIn "Palo Alto Networks Url Logs".toList rd
  pingone := strIn "PingOne".toList rd
  third_party_firewalls := strIn "Third-Party Firewalls".toList rd
  third_party_vpns := strIn "Third-Party VPNs".toList rd
  windows_event_collector := strIn "Windows Event Collector".toList rd
  xdr_agent := strIn "XDR Agent".toList rd
  xdr_agent_xth := strIn "XDR Agent with eXtended Threat Hunting (XTH)".toList rd

/-- Lines 248-258: the full classifier — the generic substring pass followed
by the special base-agent / extended-hunting overrides:

* if `'XDR Agent'` occurs and `'XTH'` does not, both agent flags are set;
  otherwise the base flag is cleared;
* if `'eXtended Threat Hunting (XTH)'` occurs, the extended flag is set. -/
def classify (rd : Str) : Sources :=
  let s := initSources rd
  let s :=
    if strIn "XDR Agent".toList rd && !(strIn "XTH".toList rd) then
      { s with xdr_agent := true, xdr_agent_xth := true }
    else
      { s with xdr_agent := false }
  if strIn "eXtended Threat Hunting (XTH)".toList rd then
    { s with xdr_agent_xth := true }
  else s

/-- The CSV header row, lines 117-158 of `get_analytics_csv.py`, in source
order. -/
def headers : List String :=
  ["Name",
   "Variant of",
   "Severity",
   "Activation Period",
   "Training Period",
   "Test Period",
   "Deduplication Period",
   "Detection Modules",
   "Detector Tags",
   "ATT&CK Tactic",
   "ATT&CK Technique",
   "AWS Audit Log",
   "AWS Flow Log",
   "AWS OCSF Flow Logs",
   "Azure Audit Log",
   "Azure Flow Log",
   "Azure SignIn Log",
   "AzureAD",
   "AzureAD Audit Log",
   "Box Audit Log",
   "DropBox",
   "Duo",
   "Gcp Audit Log",
   "Gcp Flow Log",
   "Google Workspace Audit Logs",
   "Google Workspace Authentication",
   "Health Monitoring Data",
   "Office 365 Audit",
   "Okta",
   "Okta Audit Log",
   "OneLogin",
   "Palo Alto Networks Global Protect",
   "Palo Alto Networks Platform Logs",
   "Palo Alto Networks Url Logs",
   "PingOne",
   "Third-Party Firewalls",
   "Third-Party VPNs",
   "Windows Event Collector",
   "XDR Agent",
   "XDR Agent with eXtended Threat Hunting (XTH)"]

/-- The keys of the `sources` dict (lines 216-246), in source order: the
fixed capability-flag taxonomy as it appears a second time in the code. -/
def sourceKeys : List String :=
  ["AWS Audit Log",
   "AWS Flow Log",
   "AWS OCSF Flow Logs",
   "Azure Audit Log",
   "Azure Flow Log",
   "Azure SignIn Log",
   "AzureAD",
   "AzureAD Audit Log",
   "Box Audit Log",
   "DropBox",
   "Duo",
   "Gcp Audit Log",
   "Gcp Flow Log",
   "Google Workspace Audit Logs",
   "Google Workspace Authentication",
   "Health Monitoring Data",
   "Office 365 Audit",
   "Okta",
   "Okta Audit Log",
   "OneLogin",
   "Palo Alto Networks Global Protect",
   "Palo Alto Networks Platform Logs",
   "Palo Alto Networks Url Logs",
   "PingOne",
   "Third-Party Firewalls",
   "Third-Party VPNs",
   "Windows Event Collector",
   "XDR Agent",
   "XDR Agent with eXtended Threat Hunting (XTH)"]

/-!
 ## Topic markup model

The markup parser (BeautifulSoup) is an external collaborator: a parsed
topic exposes its element sequence in document order, its full plain text,
and its title.  An `Element` carries its tag, its CSS classes, its plain
text, and — for `table` elements — the raw cell texts of its `tbody` rows.
-/

/-- One markup element, as observed through the external markup parser. -/
structure Element where
  tag : Str
  classes : List Str
  text : Str
  rows : List (List Str)
  deriving DecidableEq, Repr, Inhabited

/-- One fetched topic: its display title, its elements in document order,
and its full plain text (`soup.text`). -/
structure Topic where
  title : Str
  doc : List Element
  fullText : Str
  deriving DecidableEq, Repr, Inhabited

/-- The lookup `soup.table`: matches the first `table` element of the document. -/
def isTable (e : Element) : Bool := decide (e.tag = "table".toList)

/-- The anchors `find_all_next('a', class_='ft-expanding-block-link')`
matches. -/
def isVarAnchor (e : Element) : Bool :=
  decide (e.tag = "a".toList) && e.classes.contains "ft-expanding-block-link".toList

/-- The heading `find(lambda tag: tag.name == 'h2' and 'Variations' in tag.text)`
matches. -/
def isVarHeading (e : Element) : Bool :=
  decide (e.tag = "h2".toList) && strIn "Variations".toList e.text

/-- The elements following the first variations heading in document order;
`none` when no such `h2` exists (in the source, `soup.find` returns `None`
and the subsequent `find_all_next` raises). -/
def afterVarHeading : List Element → Option (List Element)
  | [] => none
  | e :: es => if isVarHeading e then some es else afterVarHeading es

/-- Each variation anchor paired with the first `table` element following it
(`var.find_next('table')`). -/
def anchorTables : List Element → List (Element × Option Element)
  | [] => []
  | e :: es =>
    if isVarAnchor e then (e, es.find? isTable) :: anchorTables es
    else anchorTables es

/-- The data extracted from one variation sub-block (lines 310-332). -/
structure VarData where
  detector : Str
  severity : Str
  tactic : List Str
  technique : List Str
  deriving DecidableEq, Repr, Inhabited

/-- Lines 310-332, one loop iteration: build the variation's table from the
table following its anchor (raising — `none` — when there is none), then
read the variation title from the anchor text and the required labels from
the table. -/
def varData (anchor : Element) (tbl : Option Element) : Option VarData := do
  let te ← tbl
  let table := buildTable te.rows
  let severity ← getRequired table "Severity".toList
  let tacticCell ← getRequired table "ATT&CK Tactic".toList
  let techniqueCell ← getRequired table "ATT&CK Technique".toList
  pure { detector := anchor.text, severity,
         tactic := splitEntries tacticCell, technique := splitEntries techniqueCell }

/-- The `variations` helper (lines 292-335): find the variations heading —
raising (`none`) when absent — then extract one `VarData` per following
expanding-block anchor; a failure in any block fails the whole call. -/
def variations (doc : List Element) : Option (List VarData) :=
  (afterVarHeading doc).bind fun rest =>
    (anchorTables rest).mapM (fun p => varData p.1 p.2)

/-!
 ## Detector records
-/

/-- One output row (one record of the result table), field per CSV column
group; the 29 capability columns are the `flags` structure. -/
structure Record where
  name : Str
  variantOf : Str
  severity : Str
  activationPeriod : Str
  trainingPeriod : Str
  testPeriod : Str
  dedupPeriod : Str
  detectionModules : Str
  tags : Str
  tactic : List Str
  technique : List Str
  flags : Sources
  deriving DecidableEq, Repr, Inhabited

/-- The per-topic field extraction of lines 178-198: the required labels
(`none` on a missing one, modelling the uncaught `IndexError`), the two
optional labels defaulted by the bare `try/except`, and the tactic/technique
splitting. -/
structure PrimaryData where
  severity : Str
  activation : Str
  training : Str
  test : Str
  dedup : Str
  requiredData : Str
  tags : Str
  modules : Str
  tactic : List Str
  technique : List Str
  deriving DecidableEq, Repr, Inhabited

/-- Lines 178-198: extract the primary fields from the topic's first table. -/
def extractPrimary (table : List (List Str)) : Option PrimaryData := do
  let severity ← getRequired table "Severity".toList
  let activation ← getRequired table "Activation Period".toList
  let training ← getRequired table "Training Period".toList
  let test ← getRequired table "Test Period".toList
  let dedup ← getRequired table "Deduplication Period".toList
  let requiredData ← getRequired table "Required Data".toList
  let tags := getOptional table "Detector Tags".toList
  let modules := getOptional table "Detection Modules".toList
  let tacticCell ← getRequired table "ATT&CK Tactic".toList
  let techniqueCell ← getRequired table "ATT&CK Technique".toList
  pure { severity, activation, training, test, dedup, requiredData, tags, modules,
         tactic := splitEntries tacticCell, technique := splitEntries techniqueCell }

/-- The primary row dict of lines 201-213 plus the classified sources of
lines 216-261: `Variant of` is empty, every field comes from the topic's own
table. -/
def mkPrimary (title : Str) (d : PrimaryData) : Record where
  name := title
  variantOf := []
  severity := d.severity
  activationPeriod := d.activation
  trainingPeriod := d.training
  testPeriod := d.test
  dedupPeriod := d.dedup
  detectionModules := d.modules
  tags := d.tags
  tactic := d.tactic
  technique := d.technique
  flags := classify d.requiredData

/-- The variation row dict of lines 271-286: name, severity, tactic and
technique come from the variation block; `Variant of` is the parent title;
the periods, modules, tags and the classified sources are reused from the
parent's extraction. -/
def mkVariation (title : Str) (d : PrimaryData) (v : VarData) : Record where
  name := v.detector
  variantOf := title
  severity := v.severity
  activationPeriod := d.activation
  trainingPeriod := d.training
  testPeriod := d.test
  dedupPeriod := d.dedup
  detectionModules := d.modules
  tags := d.tags
  tactic := v.tactic
  technique := v.technique
  flags := classify d.requiredData

/-- One iteration of the topic loop of `parse_topics` (lines 165-288): parse
the first table (raising when the document has none), extract the primary
fields, and — only when the literal text `Variations` occurs in the topic's
full text — extract and append the variation records. -/
def parseTopic (t : Topic) : Option (List Record) := do
  let tbl ← t.doc.find? isTable
  let d ← extractPrimary (buildTable tbl.rows)
  let primary := mkPrimary t.title d
  if strIn "Variations".toList t.fullText then
    let vs ← variations t.doc
    pure (primary :: vs.map (mkVariation t.title d))
  else
    pure [primary]

/-- The whole of `parse_topics`: every topic's records concatenated in
order; any topic's failure fails the run. -/
def parse_topics (ts : List Topic) : Option (List Record) :=
  (ts.mapM parseTopic).map List.flatten

/-!
 ## Concrete example documents

Used by the witness and counterexample theorems below.
-/

/-- A `table` element with the given raw rows. -/
def tableElem (rows : List (List Str)) : Element :=
  { tag := "table".toList, classes := [], text := [], rows }

/-- An `h2` heading element with the given text. -/
def h2Elem (txt : Str) : Element :=
  { tag := "h2".toList, classes := [], text := txt, rows := [] }

/-- An expanding-block anchor element with the given text. -/
def anchorElem (txt : Str) : Element :=
  { tag := "a".toList, classes := ["ft-expanding-block-link".toList], text := txt, rows := [] }

/-- A complete primary detector table, with every required and optional
label. -/
def demoRows : List (List Str) :=
  [["Severity".toList, "High".toList],
   ["Activation Period".toList, "14 Days".toList],
   ["Training Period".toList, "30 Days".toList],
   ["Test Period".toList, "N/A".toList],
   ["Deduplication Period".toList, "1 Day".toList],
   ["Detection Modules".toList, "Identity Analytics".toList],
   ["Detector Tags".toList, "Cloud".toList],
   ["Required Data".toList, "XDR Agent, Okta".toList],
   ["ATT&CK Tactic".toList, "Initial Access (TA0001)".toList],
   ["ATT&CK Technique".toList, "Phishing (T1566)".toList]]

/-- A complete variation table: the three labels a variation block always
carries. -/
def demoVarRows : List (List Str) :=
  [["Severity".toList, "Low".toList],
   ["ATT&CK Tactic".toList, "Execution (TA0002)".toList],
   ["ATT&CK Technique".toList, "Valid Accounts (T1078)".toList]]

/-- A second complete variation table. -/
def demoVarRowsB : List (List Str) :=
  [["Severity".toList, "Medium".toList],
   ["ATT&CK Tactic".toList, "Persistence (TA0003)".toList],
   ["ATT&CK Technique".toList, "Account Manipulation (T1098)".toList]]

/-- A variation table with no `Severity` row. -/
def demoVarRowsNoSev : List (List Str) :=
  [["ATT&CK Tactic".toList, "Execution (TA0002)".toList],
   ["ATT&CK Technique".toList, "Valid Accounts (T1078)".toList]]

/-- A topic with one well-formed variation sub-block. -/
def c4Topic : Topic :=
  { title := "Demo Detector".toList,
    doc := [tableElem demoRows, h2Elem "Variations".toList,
            anchorElem "Var One".toList, tableElem demoVarRows],
    fullText := "Demo Detector Severity Variations Var One".toList }

/-- The records extracted from `c4Topic`. -/
def c4Recs : List Record := (parseTopic c4Topic).getD []

/-- A topic identical in shape to `c4Topic`, for the C3 witness. -/
def c3Topic : Topic :=
  { title := "Demo Detector".toList,
    doc := [tableElem demoRows, h2Elem "Variations".toList,
            anchorElem "Var One".toList, tableElem demoVarRows],
    fullText := "Demo Detector Severity Variations Var One".toList }

/-- The records extracted from `c3Topic`. -/
def c3Recs : List Record := (parseTopic c3Topic).getD []

/-- The variation data extracted from `c3Topic`. -/
def c3Vars : List VarData := (variations c3Topic.doc).getD []

/-- A topic whose single variation sub-block is missing its `Severity`
label. -/
def c3BadTopic : Topic :=
  { title := "Demo Detector".toList,
    doc := [tableElem demoRows, h2Elem "Variations".toList,
            anchorElem "Bad Var".toList, tableElem demoVarRowsNoSev],
    fullText := "Demo Detector Severity Variations Bad Var".toList }

/-- A topic with two well-formed variation sub-blocks. -/
def c7Topic : Topic :=
  { title := "Twin Detector".toList,
    doc := [tableElem demoRows, h2Elem "Variations".toList,
            anchorElem "Var One".toList, tableElem demoVarRows,
            anchorElem "Var Two".toList, tableElem demoVarRowsB],
    fullText := "Twin Detector Severity Variations Var One Var Two".toList }

/-- The records extracted from `c7Topic`. -/
def c7Recs : List Record := (parseTopic c7Topic).getD []

/-- A primary table with every required label but neither optional label. -/
def c8Table : List (List Str) :=
  [["Severity".toList, "High".toList],
   ["Activation Period".toList, "14 Days".toList],
   ["Training Period".toList, "30 Days".toList],
   ["Test Period".toList, "N/A".toList],
   ["Deduplication Period".toList, "1 Day".toList],
   ["Required Data".toList, "Okta".toList],
   ["ATT&CK Tactic".toList, "Initial Access (TA0001)".toList],
   ["ATT&CK Technique".toList, "Phishing (T1566)".toList]]

/-- A topic whose full text mentions `Variations` although its document has
no `h2` heading containing that word. -/
def c10Topic : Topic :=
  { title := "Trap Detector".toList,
    doc := [tableElem demoRows, anchorElem "Variations mentioned only here".toList],
    fullText := "Trap Detector body text naming Variations outside a heading".toList }

/-!
 ## Claim C1 — CSV header order and the Required Data column
-/

/-- Claim C1, counterexample: the claim places a `Required Data` column
between `ATT&CK Technique` and the capability-flag columns, but the header
row built at lines 117-158 (and hence the emitted CSV, whose columns are
exactly `headers`) has no `Required Data` column at all. -/
theorem headers_no_required_data_column : "Required Data" ∉ headers := by decide

/-- Claim C1, amended: the CSV header row is the fixed column order Name,
Variant of, Severity, the four period columns, Detection Modules, Detector
Tags, ATT&CK Tactic, ATT&CK Technique, then one column per capability flag
in fixed taxonomy order (the `sources`-dict key order); no `Required Data`
column is emitted — the raw required-data cell text is consumed by the
classifier only. -/
theorem headers_fixed_order :
    headers =
      ["Name", "Variant of", "Severity", "Activation Period", "Training Period",
       "Test Period", "Deduplication Period", "Detection Modules", "Detector Tags",
       "ATT&CK Tactic", "ATT&CK Technique"] ++ sourceKeys ∧
    "Required Data" ∉ headers :=
  ⟨rfl, by decide⟩

/-!
 ## Claims C2 and C9 — the base-agent / extended-hunting rule
-/

/-- Claim C2: if `'XDR Agent'` occurs in the raw required-data text and
`'XTH'` does not, both the base flag and the extended-hunting flag are set;
and whenever `'eXtended Threat Hunting (XTH)'` occurs, the extended-hunting
flag is set regardless of the base marker. -/
theorem classify_base_extended (rd : Str) :
    (strIn "XDR Agent".toList rd = true → strIn "XTH".toList rd = false →
      (classify rd).xdr_agent = true ∧ (classify rd).xdr_agent_xth = true) ∧
    (strIn "eXtended Threat Hunting (XTH)".toList rd = true →
      (classify rd).xdr_agent_xth = true) := by
  unfold classify
  constructor
  · intro h1 h2
    simp only [h1, h2, Bool.not_false, Bool.and_self, if_true]
    split_ifs <;> simp
  · intro h
    simp only [h, if_true]

/-- Claim C2, witness: the rule evaluated at the raw texts `"XDR Agent"`
and `"eXtended Threat Hunting (XTH)"`. -/
theorem classify_base_extended_witness :
    ((classify "XDR Agent".toList).xdr_agent = true ∧
      (classify "XDR Agent".toList).xdr_agent_xth = true) ∧
    (classify "eXtended Threat Hunting (XTH)".toList).xdr_agent_xth = true :=
  ⟨(classify_base_extended "XDR Agent".toList).1 (by decide) (by decide),
   (classify_base_extended "eXtended Threat Hunting (XTH)".toList).2 (by decide)⟩

/-- Claim C9: the base `XDR Agent` flag is true exactly when `'XDR Agent'`
occurs in the raw text and `'XTH'` does not — in particular any occurrence
of `'XTH'` forces the base flag to false, even with `'XDR Agent'` present
(the `else` branch of line 256 clears it). -/
theorem classify_xdr_agent_eq (rd : Str) :
    (classify rd).xdr_agent =
      (strIn "XDR Agent".toList rd && !(strIn "XTH".toList rd)) := by
  unfold classify
  split_ifs with h1 h2 <;> simp_all

/-!
 ## Claim C5 — generic substring classification
-/

/-- Claim C5: outside the base-agent / extended-hunting pair, every
capability flag is true exactly when its recognized substring occurs
(case-sensitively) in the raw required-data text; and the raw text
`"XDR Agent, Okta"` yields exactly the XDR Agent, extended-hunting and Okta
flags true, every other flag false. -/
theorem classify_generic (rd : Str) :
    ((classify rd).aws_audit_log = strIn "AWS Audit Log".toList rd ∧
     (classify rd).aws_flow_log = strIn "AWS Flow Log".toList rd ∧
     (classify rd).aws_ocsf_flow_logs = strIn "AWS OCSF Flow Logs".toList rd ∧
     (classify rd).azure_audit_log = strIn "Azure Audit Log".toList rd ∧
     (classify rd).azure_flow_log = strIn "Azure Flow Log".toList rd ∧
     (classify rd).azure_signin_log = strIn "Azure SignIn Log".toList rd ∧
     (classify rd).azuread = strIn "AzureAD".toList rd ∧
     (classify rd).azuread_audit_log = strIn "AzureAD Audit Log".toList rd ∧
     (classify rd).box_audit_log = strIn "Box Audit Log".toList rd ∧
     (classify rd).dropbox = strIn "DropBox".toList rd ∧
     (classify rd).duo = strIn "Duo".toList rd ∧
     (classify rd).gcp_audit_log = strIn "Gcp Audit Log".toList rd ∧
     (classify rd).gcp_flow_log = strIn "Gcp Flow Log".toList rd ∧
     (classify rd).google_workspace_audit_logs =
       strIn "Google Workspace Audit Logs".toList rd ∧
     (classify rd).google_workspace_authentication =
       strIn "Google Workspace Authentication".toList rd ∧
     (classify rd).health_monitoring_data = strIn "Health Monitoring Data".toList rd ∧
     (classify rd).office_365_audit = strIn "Office 365 Audit".toList rd ∧
     (classify rd).okta = strIn "Okta".toList rd ∧
     (classify rd).okta_audit_log = strIn "Okta Audit Log".toList rd ∧
     (classify rd).onelogin = strIn "OneLogin".toList rd ∧
     (classify rd).palo_alto_networks_global_protect =
       strIn "Palo Alto Networks Global Protect".toList rd ∧
     (classify rd).palo_alto_networks_platform_logs =
       strIn "Palo Alto Networks Platform Logs".toList rd ∧
     (classify rd).palo_alto_networks_url_logs =
       strIn "Palo Alto Networks Url Logs".toList rd ∧
     (classify rd).pingone = strIn "PingOne".toList rd ∧
     (classify rd).third_party_firewalls = strIn "Third-Party Firewalls".toList rd ∧
     (classify rd).third_party_vpns = strIn "Third-Party VPNs".toList rd ∧
     (classify rd).windows_event_collector = strIn "Windows Event Collector".toList rd) ∧
    classify "XDR Agent, Okta".toList =
      { aws_audit_log := false, aws_flow_log := false, aws_ocsf_flow_logs := false,
        azure_audit_log := false, azure_flow_log := false, azure_signin_log := false,
        azuread := false, azuread_audit_log := false, box_audit_log := false,
        dropbox := false, duo := false, gcp_audit_log := false, gcp_flow_log := false,
        google_workspace_audit_logs := false, google_workspace_authentication := false,
        health_monitoring_data := false, office_365_audit := false, okta := true,
        okta_audit_log := false, onelogin := false,
        palo_alto_networks_global_protect := false,
        palo_alto_networks_platform_logs := false,
        palo_alto_networks_url_logs := false, pingone := false,
        third_party_firewalls := false, third_party_vpns := false,
        windows_event_collector := false, xdr_agent := true, xdr_agent_xth := true } := by
  constructor
  · unfold classify
    split_ifs <;> simp [initSources]
  · decide

/-!
 ## Claim C6 — lossless tactic/technique splitting
-/

/-- Splitting on `)` distributes over a fragment that contains no `)` and is
terminated by one. -/
theorem splitOnChar_append (rest : Str) {s : Str} (h : ')' ∉ s) :
    splitOnChar ')' (s ++ ')' :: rest) = s :: splitOnChar ')' rest := by
  induction s with
  | nil => simp [splitOnChar]
  | cons a s ih =>
    have ha : a ≠ ')' := fun e => h (e ▸ List.mem_cons_self a s)
    have h' : ')' ∉ s := fun m => h (List.mem_cons_of_mem a m)
    simp only [List.cons_append, splitOnChar, List.append_eq, if_neg ha, ih h']

/-- Claim C6: on a cell formed by concatenating `Name (ID)` entries — each
entry being a non-empty, whitespace-trimmed fragment free of `)` followed by
one closing `)` — splitting on `)`, discarding empty fragments and
re-appending `)` reconstructs exactly the original entry sequence. -/
theorem splitEntries_roundTrip (es : List Str)
    (h : ∀ e ∈ es, ∃ s, e = s ++ [')'] ∧ ')' ∉ s ∧ s ≠ [] ∧ trim s = s) :
    splitEntries es.flatten = es := by
  induction es with
  | nil => rfl
  | cons e es ih =>
    obtain ⟨s, rfl, hnp, hne, htr⟩ := h e (List.mem_cons_self e es)
    have ihe := ih (fun x hx => h x (List.mem_cons_of_mem _ hx))
    have harr : ((s ++ [')']) :: es).flatten = s ++ ')' :: es.flatten := by
      simp [List.flatten_cons]
    rw [harr]
    unfold splitEntries at ihe ⊢
    rw [splitOnChar_append _ hnp]
    have hfil : (!s.isEmpty) = true := by
      cases s with
      | nil => exact absurd rfl hne
      | cons a t => rfl
    rw [List.filter_cons, if_pos hfil, List.map_cons, htr, ihe]

/-- Claim C6, witness: two concatenated MITRE entries split back into the
original pair. -/
theorem splitEntries_roundTrip_witness :
    splitEntries
        (List.flatten ["Phishing (T1566)".toList, "Spearphishing (T1566.001)".toList]) =
      ["Phishing (T1566)".toList, "Spearphishing (T1566.001)".toList] := by
  apply splitEntries_roundTrip
  intro e he
  simp only [List.mem_cons, List.not_mem_nil, or_false] at he
  rcases he with rfl | rfl
  · exact ⟨"Phishing (T1566".toList, by decide, by decide, by decide, by decide⟩
  · exact ⟨"Spearphishing (T1566.001".toList, by decide, by decide, by decide, by decide⟩

/-!
 ## Claim C8 — optional-label defaulting
-/

/-- A label that heads no row makes the strict lookup fail. -/
theorem getRequired_eq_none_of_not_mem (table : List (List Str)) (label : Str)
    (h : ∀ r ∈ table, r.head? ≠ some label) : getRequired table label = none := by
  unfold getRequired
  split_ifs with he
  · rfl
  · have hfil : table.filter (fun r => decide (r.head? = some label)) = [] := by
      apply List.filter_eq_nil_iff.mpr
      intro r hr
      simp [h r hr]
    rw [hfil]

/-- Unfolding of `extractPrimary` into explicit `Option.bind` form. -/
theorem extractPrimary_def (table : List (List Str)) :
    extractPrimary table =
      (getRequired table "Severity".toList).bind fun severity =>
      (getRequired table "Activation Period".toList).bind fun activation =>
      (getRequired table "Training Period".toList).bind fun training =>
      (getRequired table "Test Period".toList).bind fun test =>
      (getRequired table "Deduplication Period".toList).bind fun dedup =>
      (getRequired table "Required Data".toList).bind fun requiredData =>
      (getRequired table "ATT&CK Tactic".toList).bind fun tacticCell =>
      (getRequired table "ATT&CK Technique".toList).bind fun techniqueCell =>
      some { severity, activation, training, test, dedup, requiredData,
             tags := getOptional table "Detector Tags".toList,
             modules := getOptional table "Detection Modules".toList,
             tactic := splitEntries tacticCell,
             technique := splitEntries techniqueCell } := rfl

/-- A successful primary extraction reads its tags and modules through the
defaulted lookup. -/
theorem extractPrimary_fields {table : List (List Str)} {d : PrimaryData}
    (h : extractPrimary table = some d) :
    d.tags = getOptional table "Detector Tags".toList ∧
    d.modules = getOptional table "Detection Modules".toList := by
  rw [extractPrimary_def] at h
  simp only [Option.bind_eq_some, Option.some.injEq] at h
  obtain ⟨v1, e1, v2, e2, v3, e3, v4, e4, v5, e5, v6, e6, v7, e7, v8, e8, hd⟩ := h
  subst hd
  exact ⟨rfl, rfl⟩

/-- Primary extraction succeeds as soon as the eight required labels
resolve; the optional labels cannot block it. -/
theorem extractPrimary_isSome (table : List (List Str))
    (h1 : (getRequired table "Severity".toList).isSome = true)
    (h2 : (getRequired table "Activation Period".toList).isSome = true)
    (h3 : (getRequired table "Training Period".toList).isSome = true)
    (h4 : (getRequired table "Test Period".toList).isSome = true)
    (h5 : (getRequired table "Deduplication Period".toList).isSome = true)
    (h6 : (getRequired table "Required Data".toList).isSome = true)
    (h7 : (getRequired table "ATT&CK Tactic".toList).isSome = true)
    (h8 : (getRequired table "ATT&CK Technique".toList).isSome = true) :
    (extractPrimary table).isSome = true := by
  obtain ⟨v1, e1⟩ := Option.isSome_iff_exists.mp h1
  obtain ⟨v2, e2⟩ := Option.isSome_iff_exists.mp h2
  obtain ⟨v3, e3⟩ := Option.isSome_iff_exists.mp h3
  obtain ⟨v4, e4⟩ := Option.isSome_iff_exists.mp h4
  obtain ⟨v5, e5⟩ := Option.isSome_iff_exists.mp h5
  obtain ⟨v6, e6⟩ := Option.isSome_iff_exists.mp h6
  obtain ⟨v7, e7⟩ := Option.isSome_iff_exists.mp h7
  obtain ⟨v8, e8⟩ := Option.isSome_iff_exists.mp h8
  rw [extractPrimary_def, e1, e2, e3, e4, e5, e6, e7, e8]
  rfl

/-- Claim C8: when a parsed table is missing the optional `Detector Tags`
and `Detection Modules` labels, both fields default to the empty string —
never an error and never a missing value: the defaulted lookups return the
empty string, every successful extraction carries empty tags and modules,
and extraction success depends only on the eight required labels. -/
theorem optional_labels_default (table : List (List Str))
    (h1 : ∀ r ∈ table, r.head? ≠ some "Detector Tags".toList)
    (h2 : ∀ r ∈ table, r.head? ≠ some "Detection Modules".toList) :
    getOptional table "Detector Tags".toList = [] ∧
    getOptional table "Detection Modules".toList = [] ∧
    (∀ d, extractPrimary table = some d → d.tags = [] ∧ d.modules = []) ∧
    ((getRequired table "Severity".toList).isSome = true →
     (getRequired table "Activation Period".toList).isSome = true →
     (getRequired table "Training Period".toList).isSome = true →
     (getRequired table "Test Period".toList).isSome = true →
     (getRequired table "Deduplication Period".toList).isSome = true →
     (getRequired table "Required Data".toList).isSome = true →
     (getRequired table "ATT&CK Tactic".toList).isSome = true →
     (getRequired table "ATT&CK Technique".toList).isSome = true →
     (extractPrimary table).isSome = true) := by
  have e1 : getOptional table "Detector Tags".toList = [] := by
    rw [getOptional, getRequired_eq_none_of_not_mem table _ h1]
    rfl
  have e2 : getOptional table "Detection Modules".toList = [] := by
    rw [getOptional, getRequired_eq_none_of_not_mem table _ h2]
    rfl
  refine ⟨e1, e2, ?_, extractPrimary_isSome table⟩
  intro d hd
  obtain ⟨ht, hm⟩ := extractPrimary_fields hd
  exact ⟨ht.trans e1, hm.trans e2⟩

/-- Claim C8, witness: a table with all required labels and no optional
ones. -/
theorem optional_labels_default_witness :
    getOptional c8Table "Detector Tags".toList = [] ∧
    getOptional c8Table "Detection Modules".toList = [] ∧
    (∀ d, extractPrimary c8Table = some d → d.tags = [] ∧ d.modules = []) ∧
    ((getRequired c8Table "Severity".toList).isSome = true →
     (getRequired c8Table "Activation Period".toList).isSome = true →
     (getRequired c8Table "Training Period".toList).isSome = true →
     (getRequired c8Table "Test Period".toList).isSome = true →
     (getRequired c8Table "Deduplication Period".toList).isSome = true →
     (getRequired c8Table "Required Data".toList).isSome = true →
     (getRequired c8Table "ATT&CK Tactic".toList).isSome = true →
     (getRequired c8Table "ATT&CK Technique".toList).isSome = true →
     (extractPrimary c8Table).isSome = true) :=
  optional_labels_default c8Table (by decide) (by decide)

/-!
 ## The shape of a successful topic parse
-/

/-- Unfolding of `parseTopic` into explicit `Option.bind` form. -/
theorem parseTopic_def (t : Topic) :
    parseTopic t =
      (t.doc.find? isTable).bind fun tbl =>
      (extractPrimary (buildTable tbl.rows)).bind fun d =>
      if strIn "Variations".toList t.fullText then
        (variations t.doc).bind fun vs =>
          some (mkPrimary t.title d :: vs.map (mkVariation t.title d))
      else some [mkPrimary t.title d] := rfl

/-- A successful topic parse yields the primary record built from the first
table, followed — exactly when the `Variations` marker occurs in the topic's
full text — by one variation record per extracted variation block. -/
theorem parseTopic_eq_some {t : Topic} {recs : List Record}
    (h : parseTopic t = some recs) :
    ∃ tbl d, t.doc.find? isTable = some tbl ∧
      extractPrimary (buildTable tbl.rows) = some d ∧
      ((strIn "Variations".toList t.fullText = true ∧
        ∃ bs, variations t.doc = some bs ∧
          recs = mkPrimary t.title d :: bs.map (mkVariation t.title d)) ∨
       (strIn "Variations".toList t.fullText = false ∧
        recs = [mkPrimary t.title d])) := by
  rw [parseTopic_def] at h
  simp only [Option.bind_eq_some] at h
  obtain ⟨tbl, htbl, d, hd, hrest⟩ := h
  refine ⟨tbl, d, htbl, hd, ?_⟩
  by_cases hm : strIn "Variations".toList t.fullText = true
  · rw [if_pos hm] at hrest
    simp only [Option.bind_eq_some, Option.some.injEq] at hrest
    obtain ⟨bs, hbs, hrec⟩ := hrest
    exact Or.inl ⟨hm, bs, hbs, hrec.symm⟩
  · rw [if_neg hm, Option.some.injEq] at hrest
    exact Or.inr ⟨Bool.not_eq_true _ ▸ hm, hrest.symm⟩

/-!
 ## Claim C4 — variation inheritance invariant
-/

/-- Claim C4: every variation record in a successful parse inherits the
four period fields and the capability flags verbatim from its parent
primary record (the head of the topic's record list). -/
theorem variation_inherits (t : Topic) (p : Record) (vs : List Record)
    (h : parseTopic t = some (p :: vs)) :
    ∀ v ∈ vs,
      v.activationPeriod = p.activationPeriod ∧
      v.trainingPeriod = p.trainingPeriod ∧
      v.testPeriod = p.testPeriod ∧
      v.dedupPeriod = p.dedupPeriod ∧
      v.flags = p.flags := by
  obtain ⟨tbl, d, -, -, hcase⟩ := parseTopic_eq_some h
  rcases hcase with ⟨-, bs, -, heq⟩ | ⟨-, heq⟩
  · injection heq with hp hvs
    subst hp
    subst hvs
    intro v hv
    obtain ⟨b, -, rfl⟩ := List.mem_map.mp hv
    exact ⟨rfl, rfl, rfl, rfl, rfl⟩
  · injection heq with hp hvs
    subst hvs
    intro v hv
    simp at hv

/-- Claim C4, witness: the topic `c4Topic`, whose single variation record
shares every period field and every capability flag with its primary. -/
theorem variation_inherits_witness :
    c4Recs.tail ≠ [] ∧
    ∀ v ∈ c4Recs.tail,
      v.activationPeriod = (c4Recs.headD default).activationPeriod ∧
      v.trainingPeriod = (c4Recs.headD default).trainingPeriod ∧
      v.testPeriod = (c4Recs.headD default).testPeriod ∧
      v.dedupPeriod = (c4Recs.headD default).dedupPeriod ∧
      v.flags = (c4Recs.headD default).flags :=
  ⟨by decide, variation_inherits c4Topic (c4Recs.headD default) c4Recs.tail (by rfl)⟩

/-!
 ## Claim C3 — origin of each variation field
-/

/-- Zipping a mapped list with its source pairs each image with its
preimage. -/
theorem map_zip_self {α β : Type} (f : α → β) (l : List α) :
    (l.map f).zip l = l.map fun a => (f a, a) := by
  induction l with
  | nil => rfl
  | cons a l ih => simp [ih]

/-- Claim C3 (amended): each variation record takes its name, severity,
tactic and technique from its own variation block, and inherits the parent
primary's parent-name, periods, modules, tags and capability flags; the
three labels read from the variation's own table are mandatory — a missing
one fails extraction instead of inheriting (see the counterexample). -/
theorem variation_field_sources (t : Topic) (p : Record) (vs : List Record)
    (bs : List VarData) (h : parseTopic t = some (p :: vs))
    (hb : variations t.doc = some bs)
    (hm : strIn "Variations".toList t.fullText = true) :
    vs.length = bs.length ∧
    ∀ pr ∈ vs.zip bs,
      pr.1.name = pr.2.detector ∧
      pr.1.severity = pr.2.severity ∧
      pr.1.tactic = pr.2.tactic ∧
      pr.1.technique = pr.2.technique ∧
      pr.1.variantOf = p.name ∧
      pr.1.activationPeriod = p.activationPeriod ∧
      pr.1.trainingPeriod = p.trainingPeriod ∧
      pr.1.testPeriod = p.testPeriod ∧
      pr.1.dedupPeriod = p.dedupPeriod ∧
      pr.1.detectionModules = p.detectionModules ∧
      pr.1.tags = p.tags ∧
      pr.1.flags = p.flags := by
  obtain ⟨tbl, d, -, -, hcase⟩ := parseTopic_eq_some h
  rcases hcase with ⟨-, bs2, hbs2, heq⟩ | ⟨hf, -⟩
  · rw [hb] at hbs2
    injection hbs2 with hbb
    subst hbb
    injection heq with hp hvs
    subst hp
    subst hvs
    refine ⟨by simp, ?_⟩
    intro pr hpr
    rw [map_zip_self] at hpr
    obtain ⟨b, -, rfl⟩ := List.mem_map.mp hpr
    exact ⟨rfl, rfl, rfl, rfl, rfl, rfl, rfl, rfl, rfl, rfl, rfl, rfl⟩
  · rw [hm] at hf
    exact absurd hf (by simp)

/-- Claim C3, counterexample to the claim as stated: `c3BadTopic` has one
variation sub-block whose table is missing the `Severity` label; the claim
predicts successful extraction with the severity inherited from the
primary, but the source's unconditional `[0][1]` lookup raises instead, so
the whole topic parse fails. -/
theorem variation_missing_severity_fails : parseTopic c3BadTopic = none := by rfl

/-- Claim C3, witness for the amended statement: in `c3Topic`, the single
variation record takes name, severity, tactic and technique from its own
block and everything else from the primary. -/
theorem variation_field_sources_witness :
    c3Recs.tail.length = c3Vars.length ∧
    ∀ pr ∈ c3Recs.tail.zip c3Vars,
      pr.1.name = pr.2.detector ∧
      pr.1.severity = pr.2.severity ∧
      pr.1.tactic = pr.2.tactic ∧
      pr.1.technique = pr.2.technique ∧
      pr.1.variantOf = (c3Recs.headD default).name ∧
      pr.1.activationPeriod = (c3Recs.headD default).activationPeriod ∧
      pr.1.trainingPeriod = (c3Recs.headD default).trainingPeriod ∧
      pr.1.testPeriod = (c3Recs.headD default).testPeriod ∧
      pr.1.dedupPeriod = (c3Recs.headD default).dedupPeriod ∧
      pr.1.detectionModules = (c3Recs.headD default).detectionModules ∧
      pr.1.tags = (c3Recs.headD default).tags ∧
      pr.1.flags = (c3Recs.headD default).flags :=
  variation_field_sources c3Topic (c3Recs.headD default) c3Recs.tail c3Vars
    (by rfl) (by rfl) (by rfl)

/-!
 ## Claim C7 — record multiplicity
-/

/-- Claim C7: every successfully parsed topic yields exactly one primary
record at the head of its record list, with an empty parent-name and the
topic title as name, followed by the variation records, each carrying the
primary's name as parent-name; without the `Variations` marker the topic
yields exactly one record, and with `n` extracted variation blocks it
yields `n + 1` records. -/
theorem record_multiplicity (t : Topic) (recs : List Record)
    (h : parseTopic t = some recs) :
    (∃ p vs, recs = p :: vs ∧ p.variantOf = [] ∧ p.name = t.title ∧
      ∀ v ∈ vs, v.variantOf = t.title) ∧
    (strIn "Variations".toList t.fullText = false → recs.length = 1) ∧
    (∀ bs, variations t.doc = some bs → strIn "Variations".toList t.fullText = true →
      recs.length = bs.length + 1) := by
  obtain ⟨tbl, d, -, -, hcase⟩ := parseTopic_eq_some h
  rcases hcase with ⟨hm, bs, hbs, heq⟩ | ⟨hm, heq⟩
  · subst heq
    refine ⟨⟨mkPrimary t.title d, _, rfl, rfl, rfl, ?_⟩, ?_, ?_⟩
    · intro v hv
      obtain ⟨b, -, rfl⟩ := List.mem_map.mp hv
      rfl
    · intro hf
      rw [hm] at hf
      exact absurd hf (by simp)
    · intro bs2 hbs2 hm2
      rw [hbs] at hbs2
      injection hbs2 with hbb
      subst hbb
      simp
  · subst heq
    refine ⟨⟨mkPrimary t.title d, [], rfl, rfl, rfl, ?_⟩, ?_, ?_⟩
    · intro v hv
      simp at hv
    · intro hf
      rfl
    · intro bs2 hbs2 hm2
      rw [hm] at hm2
      exact absurd hm2 (by simp)

/-- Claim C7, witness: `c7Topic` carries two variation sub-blocks and
parses to exactly three records. -/
theorem record_multiplicity_witness :
    c7Recs.length = 3 ∧
    ((∃ p vs, c7Recs = p :: vs ∧ p.variantOf = [] ∧ p.name = c7Topic.title ∧
        ∀ v ∈ vs, v.variantOf = c7Topic.title) ∧
     (strIn "Variations".toList c7Topic.fullText = false → c7Recs.length = 1) ∧
     (∀ bs, variations c7Topic.doc = some bs →
        strIn "Variations".toList c7Topic.fullText = true →
        c7Recs.length = bs.length + 1)) :=
  ⟨by rfl, record_multiplicity c7Topic c7Recs (by rfl)⟩

/-!
 ## Claim C10 — unguarded heading dereference
-/

/-- When no element is a variations heading, the heading search fails. -/
theorem afterVarHeading_eq_none (doc : List Element)
    (h : ∀ e ∈ doc, isVarHeading e = false) : afterVarHeading doc = none := by
  induction doc with
  | nil => rfl
  | cons e es ih =>
    have he : isVarHeading e = false := h e (List.mem_cons_self e es)
    have hr := ih (fun x hx => h x (List.mem_cons_of_mem e hx))
    simp only [afterVarHeading, he, Bool.false_eq_true, if_false, hr]

/-- Claim C10: when the literal text `Variations` occurs in a topic's full
text but no `h2` element containing it exists, the variation lookup finds
no heading and the unconditional dereference fails — the whole topic parse
returns `none` (modelling the uncaught `AttributeError`). -/
theorem missing_heading_fails (t : Topic)
    (hm : strIn "Variations".toList t.fullText = true)
    (hh : ∀ e ∈ t.doc, isVarHeading e = false) :
    parseTopic t = none := by
  have hv : variations t.doc = none := by
    rw [variations, afterVarHeading_eq_none t.doc hh]
    rfl
  rw [parseTopic_def]
  cases hf : t.doc.find? isTable with
  | none => rfl
  | some tbl =>
    simp only [Option.some_bind]
    cases hd : extractPrimary (buildTable tbl.rows) with
    | none => rfl
    | some d =>
      simp only [Option.some_bind]
      rw [if_pos hm, hv]
      rfl

/-- Claim C10, witness: `c10Topic` names `Variations` only in its running
text, has no matching `h2` heading, and fails to parse. -/
theorem missing_heading_fails_witness : parseTopic c10Topic = none :=
  missing_heading_fails c10Topic (by rfl) (by decide)
